import Mathlib

/-!
Verification of the geometric core of a PDF box-annotation renderer.

The development shallowly embeds two source modules:

* `box.py` — an immutable rectangle value type (`Box`) with derived
  measurements (`width`, `height`, `center`) and pairwise spatial-relation
  predicates (`hdist`, `vdist`, `precedes_x`, `precedes_y`), all assuming a
  bottom-left coordinate origin.
* `render.py` — two annotation render paths: a raster path
  (`render_boxes_as_image`, which flips the page canvas, draws boxes in
  native coordinates, and flips back, compositing an unflipped text layer)
  and a vector path (`render_boxes_as_svg`, which emits SVG elements with a
  direct `y' = scaled_page_height - y` inversion).

Real-number coordinates are modelled as rationals (exact arithmetic); the
pixel-grid vertical flip `Image.Transpose.FLIP_TOP_BOTTOM` is modelled as the
continuous map `y ↦ H - y` on a canvas of height `H`.  External collaborators
(PDF rasterisation, font metrics, float `repr` formatting) are abstracted:
the rasterised page enters as a byte list, font availability as a Boolean
predicate on font names, and numeric formatting as a fixed function of the
rational value.
-/

namespace PdfSketches

/-- Embeds the `Box` dataclass of `box.py`: an immutable rectangle with
coordinates `(x1, y1, x2, y2)` whose origin `(0, 0)` is the bottom-left
corner.  No validity constraint `x1 ≤ x2`, `y1 ≤ y2` is imposed, matching the
source, which never rejects degenerate or inverted boxes. -/
structure Box where
  x1 : ℚ
  y1 : ℚ
  x2 : ℚ
  y2 : ℚ
deriving DecidableEq, Repr

/-- `Box.center`: midpoint of the two corners. -/
def Box.center (b : Box) : ℚ × ℚ :=
  ((b.x1 + b.x2) / 2, (b.y1 + b.y2) / 2)

/-- `Box.as_tuple`: the four coordinates in order. -/
def Box.as_tuple (b : Box) : ℚ × ℚ × ℚ × ℚ :=
  (b.x1, b.y1, b.x2, b.y2)

/-- `Box.width = x2 - x1`. -/
def Box.width (b : Box) : ℚ := b.x2 - b.x1

/-- `Box.height = y2 - y1`. -/
def Box.height (b : Box) : ℚ := b.y2 - b.y1

/-- `Box.size = (width, height)`. -/
def Box.size (b : Box) : ℚ × ℚ := (b.width, b.height)

/-- `Box.hdist`: signed distance from the right side of this box to the left
side of the other box: `other.x1 - self.x2`. -/
def Box.hdist (b other : Box) : ℚ := other.x1 - b.x2

/-- `Box.vdist`: signed distance from the bottom of this box to the top of
the other box: `self.y1 - other.y2`. -/
def Box.vdist (b other : Box) : ℚ := b.y1 - other.y2

/-- `Box.precedes_x`: TBRR x-precedence, `self.x2 < other.x1 - tol`.  The
Python default `tol = 0.0` is passed explicitly by callers in this model. -/
def Box.precedes_x (b other : Box) (tol : ℚ) : Bool :=
  decide (b.x2 < other.x1 - tol)

/-- `Box.precedes_y`: TBRR y-precedence adjusted for the bottom-left origin,
`self.y1 > other.y2 + tol`. -/
def Box.precedes_y (b other : Box) (tol : ℚ) : Bool :=
  decide (b.y1 > other.y2 + tol)

/-- `Box.to_xywh`: the `(x1, y1, width, height)` representation used by
image and SVG tooling. -/
def Box.to_xywh (b : Box) : ℚ × ℚ × ℚ × ℚ :=
  (b.x1, b.y1, b.width, b.height)

/-- `Box.scale_coords`: all four coordinates multiplied by `factor`,
returned as a tuple (`tuple(map(mul, self.as_tuple(), repeat(factor)))`). -/
def Box.scale_coords (b : Box) (factor : ℚ) : ℚ × ℚ × ℚ × ℚ :=
  (b.x1 * factor, b.y1 * factor, b.x2 * factor, b.y2 * factor)

/-! ## `render.py`: shared helpers -/

/-- An RGBA color with 8-bit channels, as in `render.py`'s `RGBA` alias. -/
def RGBA : Type := ℕ × ℕ × ℕ × ℕ

instance : DecidableEq RGBA := instDecidableEqProd

/-- Embeds `_scale_coords` of `render.py` at pair arity (the Python helper
maps `mul` over a tuple of any length; it is applied to `(x, y)` centers and
to 4-tuples, embedded here at each arity used). -/
def scale_coords2 (coordinates : ℚ × ℚ) (factor : ℚ) : ℚ × ℚ :=
  (coordinates.1 * factor, coordinates.2 * factor)

/-- Embeds `_scale_coords` of `render.py` at 4-tuple arity. -/
def scale_coords4 (coordinates : ℚ × ℚ × ℚ × ℚ) (factor : ℚ) : ℚ × ℚ × ℚ × ℚ :=
  (coordinates.1 * factor, coordinates.2.1 * factor,
   coordinates.2.2.1 * factor, coordinates.2.2.2 * factor)

/-- Embeds `_invert_coords` of `render.py`: `(x, y) ↦ (x, height - y)`, for
going between bottom-left and top-left origin orientations. -/
def invert_coords (coordinates : ℚ × ℚ) (height : ℚ) : ℚ × ℚ :=
  (coordinates.1, height - coordinates.2)

/-- Rounding to three decimal places, as Python `round(x, 3)` used by
`_alpha_to_percent` (for the alpha values `a / 255`, `a ∈ 0..255`, the value
is never an exact half-multiple of `1/1000`, so round-half conventions
coincide). -/
def round3 (q : ℚ) : ℚ := (round (q * 1000) : ℤ) / 1000

/-- Embeds `_alpha_to_percent`: rewrites an 8-bit-alpha RGBA as RGB plus an
opacity fraction in `[0, 1]` rounded to three decimals. -/
def alpha_to_percent (rgba : RGBA) : ℕ × ℕ × ℕ × ℚ :=
  (rgba.1, rgba.2.1, rgba.2.2.1, round3 ((rgba.2.2.2 : ℚ) / 255))

/-- `DEFAULT_BOX_COLOR = (255, 111, 97, 64)`. -/
def DEFAULT_BOX_COLOR : RGBA := (255, 111, 97, 64)

/-- `DEFAULT_LABEL_BG_COLOR = (245, 223, 77, 196)`. -/
def DEFAULT_LABEL_BG_COLOR : RGBA := (245, 223, 77, 196)

/-- `DEFAULT_LABEL_TEXT_COLOR = (102, 103, 171, 255)`. -/
def DEFAULT_LABEL_TEXT_COLOR : RGBA := (102, 103, 171, 255)

/-- The `box_colors` argument of both render paths:
`Union[RGBA, List[RGBA], None]`. -/
inductive BoxColors where
  | unset : BoxColors
  | single : RGBA → BoxColors
  | explicit : List RGBA → BoxColors

/-- The per-box color resolution shared by both render paths:
`None` becomes the default repeated per box, a single tuple is broadcast,
and an explicit list is used as given (unvalidated against the box count). -/
def resolve_colors (bc : BoxColors) (numBoxes : ℕ) : List RGBA :=
  match bc with
  | .unset => List.replicate numBoxes DEFAULT_BOX_COLOR
  | .single c => List.replicate numBoxes c
  | .explicit cs => cs

/-- The label resolution shared by both render paths: `None` becomes the
stringified zero-based indices `[str(i) for i in range(len(boxes))]`. -/
def resolve_labels (bl : Option (List String)) (numBoxes : ℕ) : List String :=
  match bl with
  | none => (List.range numBoxes).map toString
  | some ls => ls

/-! ## Font discovery -/

/-- The fixed font preference list probed by `_get_system_font`. -/
def font_preference_list : List String :=
  ["Menlo", "Monaco", "Consolas", "Ubuntu Mono", "Courier New"]

/-- The `RuntimeError` message raised when no preference-list font loads. -/
def no_font_message : String :=
  "No suitable system default monospace font available."

/-- Embeds `_get_system_font`: probe the preference list in order (`avail`
models whether `ImageFont.truetype` succeeds for a name) and return the
first available name, or raise (modelled as `Except.error`) when none is. -/
def get_system_font (avail : String → Bool) : Except String String :=
  match font_preference_list.find? avail with
  | some f => Except.ok f
  | none => Except.error no_font_message

/-! ## Raster path geometry (`render_boxes_as_image`)

The source rasterises the page, immediately flips it top-to-bottom, draws
each box rectangle at `box.scale_coords(scale)` on the flipped canvas, and
finally flips the canvas back before compositing an unflipped text layer.
The net effect on geometry is captured by composing the draw coordinates
with the final flip `y ↦ H - y` at `H = h * scale`. -/

/-- The image of an axis-aligned rectangle with corners `(x1, y1)` and
`(x2, y2)` under the vertical flip `y ↦ H - y`, written with corners in the
same slot order (so for `y1 ≤ y2` the smaller final `y` comes first):
`(x1, H - y2, x2, H - y1)`. -/
def flip_rect (H : ℚ) (r : ℚ × ℚ × ℚ × ℚ) : ℚ × ℚ × ℚ × ℚ :=
  (r.1, H - r.2.2.2, r.2.2.1, H - r.2.1)

/-- Final top-left-origin corner coordinates of a box rectangle produced by
the raster path: the rectangle is drawn at `box.scale_coords(scale)` on the
flipped canvas (`render.py` line 117) and the canvas is then flipped back
(line 146) on a page of scaled height `h * scale`. -/
def raster_rect_final (h scale : ℚ) (b : Box) : ℚ × ℚ × ℚ × ℚ :=
  flip_rect (h * scale) (b.scale_coords scale)

/-- Final top-left-origin position of a label center in the raster path:
the box center is scaled, then inverted against `h * scale` for the
unflipped text layer (`render.py` lines 121 and 138), which is composited
without any further flip. -/
def raster_label_center (h scale : ℚ) (b : Box) : ℚ × ℚ :=
  invert_coords (scale_coords2 b.center scale) (h * scale)

/-- The list of `(final rectangle, fill color)` pairs drawn by the raster
path's `for box, color in zip(boxes, box_colors)` loop. -/
def image_rects (h scale : ℚ) (boxes : List Box) (colors : List RGBA) :
    List ((ℚ × ℚ × ℚ × ℚ) × RGBA) :=
  List.zipWith (fun b c => (raster_rect_final h scale b, c)) boxes colors

/-- The result of `render_boxes_as_image`, reduced to its geometric content:
the drawn rectangles with their colors, the labels with their final text
positions, and the resolved font.  The label-background ellipse extents are
omitted: they depend on the text-measurement collaborator
(`draw_text.textbbox`), which is outside the modelled core; the ellipse
*center* coincides with the label center below. -/
structure ImageArtifact where
  rects : List ((ℚ × ℚ × ℚ × ℚ) × RGBA)
  labels : List (String × (ℚ × ℚ))
  font : String

/-- Embeds `render_boxes_as_image` at the geometric level: styling defaults
are resolved (colors, labels, then the font, which raises when unset and no
preference-list font is available — before any drawing), rectangles are
drawn per `zip(boxes, box_colors)`, and labels per
`zip(box_labels, centers)`. -/
def render_boxes_as_image (avail : String → Bool) (h : ℚ) (boxes : List Box)
    (scale : ℚ) (font_name : Option String) (box_colors : BoxColors)
    (box_labels : Option (List String)) : Except String ImageArtifact :=
  let colors := resolve_colors box_colors boxes.length
  let labels := resolve_labels box_labels boxes.length
  match (match font_name with
         | none => get_system_font avail
         | some f => Except.ok f) with
  | Except.error e => Except.error e
  | Except.ok font =>
      Except.ok
        { rects := image_rects h scale boxes colors
          labels := List.zipWith
            (fun lab b => (lab, raster_label_center h scale b)) labels boxes
          font := font }

/-! ## Vector path (`render_boxes_as_svg`)

The SVG path emits text.  Python formats the interpolated floats with the
external float `repr`; numeric formatting is abstracted here as a fixed
function of the rational value (`fmtQ`), which preserves every property the
claims state (the emitted geometry, element order, and determinism). -/

/-- Abstraction of Python float formatting used in the SVG f-strings: a
fixed rendering of the numeric value. -/
def fmtQ (q : ℚ) : String := toString q

/-- Rendering of an RGB-plus-opacity color tuple as Python formats a tuple,
`(r, g, b, a)`. -/
def fmtColor (c : ℕ × ℕ × ℕ × ℚ) : String :=
  "(" ++ toString c.1 ++ ", " ++ toString c.2.1 ++ ", " ++
    toString c.2.2.1 ++ ", " ++ toString c.2.2.2 ++ ")"

/-- The `img_type` argument: `Literal["jpeg", "png"]`. -/
inductive ImgType where
  | jpeg : ImgType
  | png : ImgType

/-- The literal string of an image type. -/
def ImgType.toStr : ImgType → String
  | .jpeg => "jpeg"
  | .png => "png"

/-- The base64 alphabet used by standard `base64.b64encode`. -/
def b64_alphabet : List Char :=
  "ABCDEFGHIJKLMNOPQRSTUVWXYZabcdefghijklmnopqrstuvwxyz0123456789+/".toList

/-- Character of a six-bit value in the base64 alphabet. -/
def b64_char (n : ℕ) : Char := b64_alphabet.getD n 'A'

/-- Standard base64 of a byte list (each byte reduced mod 256), embedding
the external `base64.b64encode` collaborator used by `_b64_encode_image`. -/
def b64_encode : List ℕ → String
  | a :: b :: c :: rest =>
      let n := (a % 256) * 65536 + (b % 256) * 256 + c % 256
      String.mk [b64_char (n / 262144 % 64), b64_char (n / 4096 % 64),
                 b64_char (n / 64 % 64), b64_char (n % 64)] ++ b64_encode rest
  | [a, b] =>
      let n := (a % 256) * 65536 + (b % 256) * 256
      String.mk [b64_char (n / 262144 % 64), b64_char (n / 4096 % 64),
                 b64_char (n / 64 % 64)] ++ "="
  | [a] =>
      let n := (a % 256) * 65536
      String.mk [b64_char (n / 262144 % 64), b64_char (n / 4096 % 64)] ++ "=="
  | [] => ""

/-- Embeds `_b64_encode_image` applied to the encoded image buffer: the
in-memory raster bytes (produced by the external image encoder) are
base64-encoded to a string. -/
def b64_encode_image (imageBytes : List ℕ) : String := b64_encode imageBytes

/-- The `(x, y, width, height)` emitted for one box by the SVG rect loop:
`bx, by, bw, bh = _scale_coords(box.to_xywh(), scale)` followed by
`by = (scale * h) - (by + bh)`, mapping the coordinate to the upper-left
corner of the box in the SVG's top-left-origin convention. -/
def svg_rect_xywh (h scale : ℚ) (box : Box) : ℚ × ℚ × ℚ × ℚ :=
  let s := scale_coords4 box.to_xywh scale
  (s.1, (scale * h) - (s.2.1 + s.2.2.2), s.2.2.1, s.2.2.2)

/-- Corner form `(x1, y1, x2, y2)` of an `(x, y, w, h)` rectangle:
`(x, y, x + w, y + h)`. -/
def rect_edges_of_xywh (r : ℚ × ℚ × ℚ × ℚ) : ℚ × ℚ × ℚ × ℚ :=
  (r.1, r.2.1, r.1 + r.2.2.1, r.2.1 + r.2.2.2)

/-- The label point used by the SVG circle and text elements: the box
center scaled, then inverted against `scale * h`
(`cx, cy = _invert_coords(_scale_coords(c, scale), scale * h)`). -/
def svg_label_point (h scale : ℚ) (c : ℚ × ℚ) : ℚ × ℚ :=
  invert_coords (scale_coords2 c scale) (scale * h)

/-- Final position of a box's label center in the SVG path. -/
def svg_label_center (h scale : ℚ) (b : Box) : ℚ × ℚ :=
  svg_label_point h scale b.center

/-- The `<rect .../>` element text for one box and color. -/
def svg_rect_string (h scale : ℚ) (box : Box) (color : RGBA) : String :=
  let g := svg_rect_xywh h scale box
  let c := alpha_to_percent color
  "<rect x=\"" ++ fmtQ g.1 ++ "\" y=\"" ++ fmtQ g.2.1 ++ "\" width=\"" ++
    fmtQ g.2.2.1 ++ "\" height=\"" ++ fmtQ g.2.2.2 ++
    "\" style=\"fill:rgba" ++ fmtColor c ++ "\" />"

/-- The `<rect .../>` elements emitted by the SVG path's
`for box, color in zip(boxes, box_colors)` loop. -/
def svg_rect_strings (h scale : ℚ) (boxes : List Box) (colors : List RGBA) :
    List String :=
  List.zipWith (svg_rect_string h scale) boxes colors

/-- The `<circle .../>` element text behind one label, centered on the
inverted scaled box center with radius `4 * scale`. -/
def svg_circle_string (h scale : ℚ) (bg : ℕ × ℕ × ℕ × ℚ) (c : ℚ × ℚ) :
    String :=
  let p := svg_label_point h scale c
  "<circle cx=\"" ++ fmtQ p.1 ++ "\" cy=\"" ++ fmtQ p.2 ++ "\" r=\"" ++
    fmtQ (4 * scale) ++ "\" style=\"fill:rgba" ++ fmtColor bg ++ "\" />"

/-- The `<text ...>...</text>` element for one label, centered on the same
point as its circle, with the four-way text-shadow outline. -/
def svg_text_string (h scale : ℚ) (txtc bg : ℕ × ℕ × ℕ × ℚ)
    (label : String) (c : ℚ × ℚ) : String :=
  let p := svg_label_point h scale c
  "<text font-size=\"" ++ fmtQ (6 * scale) ++ "\" fill=\"rgba" ++
    fmtColor txtc ++ "\" x=\"" ++ fmtQ p.1 ++ "\" y=\"" ++ fmtQ p.2 ++
    "\" dominant-baseline=\"middle\" text-anchor=\"middle\" " ++
    "style=\"text-shadow: -1px 1px 0 rgba" ++ fmtColor bg ++ ",1px 1px 0 rgba" ++
    fmtColor bg ++ ",1px -1px 0 rgba" ++ fmtColor bg ++ ",-1px -1px 0 rgba" ++
    fmtColor bg ++ "\" font-weight=\"bold\">" ++ label ++ "</text>"

/-- The declared document dimensions of the SVG: `(w * scale, h * scale)`
(the `width=...`/`height=...` substituted into `svg_page_template`). -/
def svg_declared_dims (w h scale : ℚ) : ℚ × ℚ := (w * scale, h * scale)

/-- Embeds `svg_page_template.format(...).strip()`: the fixed SVG document
skeleton with the declared width/height, the embedded base64 image, and the
three joined element blocks, with the leading/trailing whitespace of the
template literal already stripped. -/
def svg_page_template (width height : ℚ) (img_type : ImgType)
    (img_str svgrects_str svgcircles_str textrects_str : String) : String :=
  "<svg width=\"" ++ fmtQ width ++ "\" height=\"" ++ fmtQ height ++
    "\" xmlns=\"http://www.w3.org/2000/svg\">\n<defs>\n" ++
    "  <style type=\"text/css\">\n    text \x7b\n" ++
    "          font-family: monospace;\n          font-weight: 700;\n" ++
    "    \x7d\n  </style>\n</defs>\n<image href=\"data:image/" ++
    img_type.toStr ++ ";base64," ++ img_str ++
    "\" x=\"0.0\" y=\"0.0\" height=\"100%\" width=\"100%\" " ++
    "preserveAspectRatio=\"none\" />\n" ++ svgrects_str ++ "\n" ++
    svgcircles_str ++ "\n" ++ textrects_str ++ "\n</svg>"

/-- Embeds `render_boxes_as_svg`: resolve styling defaults, base64-embed
the rasterised page bytes, build the rect elements from
`zip(boxes, box_colors)` and the circle and text elements from
`zip(box_labels, centers)`, join each block with newlines, and substitute
everything into the page template. -/
def render_boxes_as_svg (w h : ℚ) (imageBytes : List ℕ) (boxes : List Box)
    (scale : ℚ) (box_colors : BoxColors) (box_labels : Option (List String))
    (label_bg_color label_text_color : Option RGBA) (img_type : ImgType) :
    String :=
  let colors := resolve_colors box_colors boxes.length
  let labels := resolve_labels box_labels boxes.length
  let bg := alpha_to_percent (label_bg_color.getD DEFAULT_LABEL_BG_COLOR)
  let txtc := alpha_to_percent (label_text_color.getD DEFAULT_LABEL_TEXT_COLOR)
  let b64_image := b64_encode_image imageBytes
  let svgrects := svg_rect_strings h scale boxes colors
  let centers := boxes.map Box.center
  let svgcircles :=
    List.zipWith (fun _lab c => svg_circle_string h scale bg c) labels centers
  let textrects :=
    List.zipWith (fun lab c => svg_text_string h scale txtc bg lab c)
      labels centers
  let dims := svg_declared_dims w h scale
  svg_page_template dims.1 dims.2 img_type b64_image
    (String.intercalate "\n" svgrects)
    (String.intercalate "\n" svgcircles)
    (String.intercalate "\n" textrects)

/-- One full argument vector of `render_boxes_as_svg`, bundled so calls can
be compared as values. -/
structure SvgCall where
  w : ℚ
  h : ℚ
  imageBytes : List ℕ
  boxes : List Box
  scale : ℚ
  box_colors : BoxColors
  box_labels : Option (List String)
  label_bg_color : Option RGBA
  label_text_color : Option RGBA
  img_type : ImgType

/-- `render_boxes_as_svg` applied to a bundled argument vector. -/
def render_svg_call (c : SvgCall) : String :=
  render_boxes_as_svg c.w c.h c.imageBytes c.boxes c.scale c.box_colors
    c.box_labels c.label_bg_color c.label_text_color c.img_type

/-! ## Claims -/

/-- C1: for every page height, scale factor, and box, the raster path (draw
on the flipped canvas at `box.scale_coords(scale)`, then flip back) and the
vector path (direct `y' = scaled_page_height - y` inversion) place the box
rectangle's corner coordinates and the label's center at the same final
top-left-origin positions. -/
theorem raster_vector_paths_agree (h scale : ℚ) (b : Box) :
    rect_edges_of_xywh (svg_rect_xywh h scale b) = raster_rect_final h scale b ∧
    svg_label_center h scale b = raster_label_center h scale b := by
  simp only [rect_edges_of_xywh, svg_rect_xywh, raster_rect_final, flip_rect,
    Box.scale_coords, scale_coords4, scale_coords2, Box.to_xywh, Box.width,
    Box.height, svg_label_center, svg_label_point, raster_label_center,
    invert_coords, Box.center, Prod.ext_iff]
  refine ⟨⟨trivial, by ring, by ring, by ring⟩, trivial, by ring⟩

/-- C2: every SVG rectangle's vertical position is
`y' = scaled_page_height - (y1 * scale + height * scale)`; for the box
`(10, 10, 50, 30)` on a 100×100 page at scale 1 the emitted rectangle is
`(x, y, w, h) = (10, 70, 40, 20)` and the declared document dimensions are
`100 × 100`. -/
theorem svg_rect_vertical_position :
    (∀ (h scale : ℚ) (b : Box),
        (svg_rect_xywh h scale b).2.1 =
          scale * h - (b.y1 * scale + b.height * scale)) ∧
    svg_rect_xywh 100 1 ⟨10, 10, 50, 30⟩ = (10, 70, 40, 20) ∧
    svg_declared_dims 100 100 1 = (100, 100) := by
  refine ⟨fun h scale b => rfl, ?_, ?_⟩
  · norm_num [svg_rect_xywh, scale_coords4, Box.to_xywh, Box.width, Box.height]
  · norm_num [svg_declared_dims]

/-- C3 counterexample: without a validity precondition the mutual exclusion
of `precedes_x` fails — for the inverted box `A = B = (x1 = 10, x2 = 0)` and
`tol = 0`, both `precedes_x(A, B, tol)` and `precedes_x(B, A, tol)` hold, so
the claim that mutual exclusion never depends on box validity is false. -/
theorem precedes_x_mutual_exclusion_needs_validity :
    ¬ (∀ (A B : Box) (tol : ℚ), 0 ≤ tol →
        ¬(A.precedes_x B tol = true ∧ B.precedes_x A tol = true)) := by
  intro hclaim
  exact hclaim ⟨10, 0, 0, 0⟩ ⟨10, 0, 0, 0⟩ 0 le_rfl
    ⟨by norm_num [Box.precedes_x], by norm_num [Box.precedes_x]⟩

/-- C3 amended: for `tol ≥ 0`, `precedes_x(A, B, tol)` and
`precedes_x(B, A, tol)` are never both true for boxes that are x-valid
(`x1 ≤ x2`); and — without any validity precondition — both are false
whenever the x-ranges overlap (`A.x1 ≤ B.x2` and `B.x1 ≤ A.x2`). -/
theorem precedes_x_asymmetry (A B : Box) (tol : ℚ) (htol : 0 ≤ tol) :
    (A.x1 ≤ A.x2 → B.x1 ≤ B.x2 →
       ¬(A.precedes_x B tol = true ∧ B.precedes_x A tol = true)) ∧
    (A.x1 ≤ B.x2 → B.x1 ≤ A.x2 →
       A.precedes_x B tol = false ∧ B.precedes_x A tol = false) := by
  simp only [Box.precedes_x, decide_eq_true_eq, decide_eq_false_iff_not,
    not_and, not_lt]
  constructor
  · intro hA hB h1
    linarith
  · intro h1 h2
    constructor <;> linarith

/-- Witness for the amended C3 at concrete boxes: a separated valid pair is
not mutually preceding, and an overlapping pair precedes in neither
direction. -/
theorem precedes_x_asymmetry_witness :
    (¬(Box.precedes_x ⟨0, 0, 1, 1⟩ ⟨2, 0, 3, 1⟩ 0 = true ∧
        Box.precedes_x ⟨2, 0, 3, 1⟩ ⟨0, 0, 1, 1⟩ 0 = true)) ∧
    (Box.precedes_x ⟨0, 0, 2, 1⟩ ⟨1, 0, 3, 1⟩ 0 = false ∧
      Box.precedes_x ⟨1, 0, 3, 1⟩ ⟨0, 0, 2, 1⟩ 0 = false) :=
  ⟨(precedes_x_asymmetry ⟨0, 0, 1, 1⟩ ⟨2, 0, 3, 1⟩ 0 le_rfl).1
      (by norm_num) (by norm_num),
   (precedes_x_asymmetry ⟨0, 0, 2, 1⟩ ⟨1, 0, 3, 1⟩ 0 le_rfl).2
      (by norm_num) (by norm_num)⟩

/-- C4: `precedes_y(A, B, tol)` holds exactly when `A.y1 > B.y2 + tol`, and
for `A` with `y1 = 10, y2 = 20` and `B` with `y1 = 0, y2 = 5`,
`A.precedes_y(B)` is true while `B.precedes_y(A)` is false. -/
theorem precedes_y_iff_bottom_above_top :
    (∀ (A B : Box) (tol : ℚ),
        A.precedes_y B tol = true ↔ A.y1 > B.y2 + tol) ∧
    Box.precedes_y ⟨0, 10, 0, 20⟩ ⟨0, 0, 0, 5⟩ 0 = true ∧
    Box.precedes_y ⟨0, 0, 0, 5⟩ ⟨0, 10, 0, 20⟩ 0 = false := by
  refine ⟨fun A B tol => ?_, ?_, ?_⟩ <;> norm_num [Box.precedes_y]

/-- C5: `hdist(A, B) = B.x1 - A.x2` and `vdist(A, B) = A.y1 - B.y2` exactly,
each strictly negative when the boxes overlap on the respective axis, and
`hdist` on `A = (0,0,2,2)`, `B = (5,0,7,2)` equals 3. -/
theorem hdist_vdist_formulas :
    (∀ A B : Box, A.hdist B = B.x1 - A.x2 ∧ A.vdist B = A.y1 - B.y2) ∧
    (∀ A B : Box, A.x1 < B.x2 → B.x1 < A.x2 → A.hdist B < 0) ∧
    (∀ A B : Box, A.y1 < B.y2 → B.y1 < A.y2 → A.vdist B < 0) ∧
    Box.hdist ⟨0, 0, 2, 2⟩ ⟨5, 0, 7, 2⟩ = 3 := by
  refine ⟨fun A B => ⟨rfl, rfl⟩, fun A B h1 h2 => ?_, fun A B h1 h2 => ?_, ?_⟩
  · simp only [Box.hdist]; linarith
  · simp only [Box.vdist]; linarith
  · norm_num [Box.hdist]

/-- Witness for C5 at concrete overlapping boxes: the signed gaps are
negative. -/
theorem hdist_vdist_formulas_witness :
    Box.hdist ⟨0, 0, 2, 2⟩ ⟨1, 0, 3, 2⟩ < 0 ∧
    Box.vdist ⟨0, 0, 2, 2⟩ ⟨0, 1, 2, 3⟩ < 0 :=
  ⟨hdist_vdist_formulas.2.1 ⟨0, 0, 2, 2⟩ ⟨1, 0, 3, 2⟩ (by norm_num) (by norm_num),
   hdist_vdist_formulas.2.2.1 ⟨0, 0, 2, 2⟩ ⟨0, 1, 2, 3⟩ (by norm_num) (by norm_num)⟩

/-- C6: `scale_coords(factor)` multiplies all four coordinates by `factor`,
and for nonzero `k`, scaling by `k` and then by `1 / k` recovers the
original coordinate tuple exactly (the model computes over exact
rationals). -/
theorem scale_coords_roundtrip :
    (∀ (b : Box) (factor : ℚ),
        b.scale_coords factor =
          (b.x1 * factor, b.y1 * factor, b.x2 * factor, b.y2 * factor)) ∧
    (∀ (b : Box) (k : ℚ), k ≠ 0 →
        scale_coords4 (b.scale_coords k) (1 / k) = b.as_tuple) := by
  refine ⟨fun b factor => rfl, fun b k hk => ?_⟩
  simp only [scale_coords4, Box.scale_coords, Box.as_tuple, Prod.ext_iff]
  refine ⟨?_, ?_, ?_, ?_⟩ <;> field_simp

/-- Witness for C6: the round trip at `k = 2` on a concrete box. -/
theorem scale_coords_roundtrip_witness :
    scale_coords4 (Box.scale_coords ⟨1, 2, 3, 4⟩ 2) (1 / 2) =
      Box.as_tuple ⟨1, 2, 3, 4⟩ :=
  scale_coords_roundtrip.2 ⟨1, 2, 3, 4⟩ 2 (by norm_num)

/-- C7: with no font identifier supplied, `render_boxes_as_image` fails with
the `RuntimeError` message when no preference-list font is available (no
fallback, no artifact), and resolves the first available preference-list
font — returning an artifact carrying it — when one is available. -/
theorem font_resolution (avail : String → Bool) (h scale : ℚ)
    (boxes : List Box) (bc : BoxColors) (bl : Option (List String)) :
    ((∀ f ∈ font_preference_list, avail f = false) →
       render_boxes_as_image avail h boxes scale none bc bl =
         Except.error no_font_message) ∧
    (∀ f₀, font_preference_list.find? avail = some f₀ →
       get_system_font avail = Except.ok f₀ ∧
       ∃ art, render_boxes_as_image avail h boxes scale none bc bl =
           Except.ok art ∧ art.font = f₀) := by
  constructor
  · intro hnone
    have hfind : font_preference_list.find? avail = none :=
      List.find?_eq_none.mpr (fun x hx => by simp [hnone x hx])
    simp [render_boxes_as_image, get_system_font, hfind]
  · intro f₀ hf
    refine ⟨by simp [get_system_font, hf], ?_⟩
    simp only [render_boxes_as_image, get_system_font, hf]
    exact ⟨_, rfl, rfl⟩

/-- Witness for C7: with no font available the call errors; with exactly
"Consolas" available it succeeds and resolves "Consolas" (the first
available name in the preference list). -/
theorem font_resolution_witness :
    render_boxes_as_image (fun _ => false) 100 [] 1 none BoxColors.unset none =
      Except.error no_font_message ∧
    ∃ art, render_boxes_as_image (fun n => n == "Consolas") 100 [] 1 none
        BoxColors.unset none = Except.ok art ∧ art.font = "Consolas" :=
  ⟨(font_resolution (fun _ => false) 100 1 [] BoxColors.unset none).1
      (fun f _ => rfl),
   ((font_resolution (fun n => n == "Consolas") 100 1 [] BoxColors.unset
        none).2 "Consolas" (by rfl)).2⟩

/-- C8: each axis-precedence predicate is exactly the comparison of the
corresponding signed gap against the tolerance:
`precedes_x(A, B, tol) ↔ hdist(A, B) > tol` and
`precedes_y(A, B, tol) ↔ vdist(A, B) > tol`. -/
theorem precedes_iff_dist_gt_tol (A B : Box) (tol : ℚ) :
    (A.precedes_x B tol = true ↔ A.hdist B > tol) ∧
    (A.precedes_y B tol = true ↔ A.vdist B > tol) := by
  simp only [Box.precedes_x, Box.precedes_y, Box.hdist, Box.vdist,
    decide_eq_true_eq]
  constructor <;> constructor <;> intro h <;> linarith

/-- C9: with an explicit color list of a different length than the box list,
both render paths draw exactly `min(len(boxes), len(box_colors))` rectangles
(Python `zip` truncation), pairing boxes with colors positionally; no
out-of-range access occurs (the functions are total). -/
theorem explicit_color_list_truncates (h scale : ℚ) (boxes : List Box)
    (l : List RGBA) :
    (image_rects h scale boxes l).length = min boxes.length l.length ∧
    (svg_rect_strings h scale boxes l).length = min boxes.length l.length ∧
    (∀ (i : ℕ) (b : Box) (c : RGBA), boxes[i]? = some b → l[i]? = some c →
       (image_rects h scale boxes l)[i]? =
         some (raster_rect_final h scale b, c) ∧
       (svg_rect_strings h scale boxes l)[i]? =
         some (svg_rect_string h scale b c)) := by
  refine ⟨by simp [image_rects, List.length_zipWith],
    by simp [svg_rect_strings, List.length_zipWith], ?_⟩
  intro i b c hb hc
  constructor <;> simp [image_rects, svg_rect_strings, List.getElem?_zipWith,
    hb, hc]

/-- Witness for C9: two boxes and one color give exactly one rectangle, the
positional pairing of box 0 with color 0. -/
theorem explicit_color_list_truncates_witness :
    (image_rects 100 1 [⟨0, 0, 1, 1⟩, ⟨1, 1, 2, 2⟩] [DEFAULT_BOX_COLOR]).length
      = 1 ∧
    (image_rects 100 1 [⟨0, 0, 1, 1⟩, ⟨1, 1, 2, 2⟩] [DEFAULT_BOX_COLOR])[0]? =
      some (raster_rect_final 100 1 ⟨0, 0, 1, 1⟩, DEFAULT_BOX_COLOR) := by
  have H := explicit_color_list_truncates 100 1 [⟨0, 0, 1, 1⟩, ⟨1, 1, 2, 2⟩]
    [DEFAULT_BOX_COLOR]
  exact ⟨H.1.trans rfl,
    (H.2.2 0 ⟨0, 0, 1, 1⟩ DEFAULT_BOX_COLOR rfl rfl).1⟩

/-- C10: `render_boxes_as_svg` is deterministic — two calls with equal
argument vectors (page size, rasterised image bytes, boxes, scale, colors,
labels, image type) produce character-for-character identical SVG strings;
the embedding is a pure function of its arguments, with no hidden state. -/
theorem render_svg_deterministic (a b : SvgCall) (hab : a = b) :
    render_svg_call a = render_svg_call b := by
  rw [hab]

/-- Witness for C10: a repeated concrete call yields the identical string. -/
theorem render_svg_deterministic_witness :
    render_svg_call ⟨100, 100, [1, 2, 3], [⟨10, 10, 50, 30⟩], 1,
        BoxColors.unset, none, none, none, ImgType.png⟩ =
      render_svg_call ⟨100, 100, [1, 2, 3], [⟨10, 10, 50, 30⟩], 1,
        BoxColors.unset, none, none, none, ImgType.png⟩ :=
  render_svg_deterministic _ _ rfl

end PdfSketches
